import Mathlib

/-!
Shallow embedding of the core logic of `drawing-quote-analyzer-v4.py`
(Drawing-and-Quote-Analyzer): the item matcher `match_quote_to_drawing`,
the classifier `analyze_drawing_vs_quotes`, the dataframe extractors
`extract_equipment_from_dataframe` / `extract_quotes_from_dataframe`, and
the de-duplication passes of `process_drawing_file` / `process_quote_file`.

Modelling conventions:
* Python strings are Lean `String`; the data handled by the program is ASCII,
  so `String.toLower` / `String.toUpper` / `String.trim` model `.lower()` /
  `.upper()` / `.strip()`.
* Python `float` prices are modelled as exact rationals `ℚ`; the verified
  properties are dataflow identities (which field is assigned which product),
  not rounding facts.  Quantities are `Int` (Python `int`).
* Python exceptions caught by the per-row `try ... except: continue` are
  modelled by `Option`: a row mapped to `none` is skipped.
* `float(s)` on a cleaned cell is modelled by `pyFloat?`, which accepts the
  decimal literals occurring in this domain (optional sign, digits, at most
  one dot); `int(s)` by `pyInt?`; `int(float_value)` truncation toward zero
  by `truncRat`.
* A dataframe is a list of column names plus rows given as association lists
  from (normalized) column name to the `str()` of the cell.
-/

/-- Strip leading and trailing whitespace from a char list (`str.strip()`).
Structurally recursive stand-in for `String.trim`, which the kernel cannot
reduce. -/
def trimChars (l : List Char) : List Char :=
  ((l.dropWhile Char.isWhitespace).reverse.dropWhile Char.isWhitespace).reverse

/-- Python `s.strip()`. -/
def pyStrip (s : String) : String :=
  String.mk (trimChars s.data)

/-- Python `s.lower()` (ASCII, like the data this program handles). -/
def pyLower (s : String) : String :=
  String.mk (s.data.map Char.toLower)

/-- Python `s.upper()` (ASCII). -/
def pyUpper (s : String) : String :=
  String.mk (s.data.map Char.toUpper)

/-- Digits of an ASCII numeral to its value (helper for `pyInt?`/`pyFloat?`). -/
def digitsToNat (l : List Char) : Nat :=
  l.foldl (fun a c => a * 10 + (c.toNat - 48)) 0

/-- Python `int(s)`: optional surrounding whitespace, optional sign, digits. -/
def pyInt? (s : String) : Option Int :=
  match trimChars s.data with
  | '-' :: rest =>
      if rest ≠ [] ∧ rest.all Char.isDigit then some (-(digitsToNat rest : Int)) else none
  | '+' :: rest =>
      if rest ≠ [] ∧ rest.all Char.isDigit then some ((digitsToNat rest : Int)) else none
  | l =>
      if l ≠ [] ∧ l.all Char.isDigit then some ((digitsToNat l : Int)) else none

/-- Unsigned decimal literal (`12`, `12.5`, `12.`, `.5`) split into integer
digits value, fraction digits value and fraction length; `none` models a
raised `ValueError`. -/
def decParts? (l : List Char) : Option (Nat × Nat × Nat) :=
  let intPart := l.takeWhile Char.isDigit
  let rest := l.dropWhile Char.isDigit
  match rest with
  | [] => if intPart.isEmpty then none else some (digitsToNat intPart, 0, 0)
  | '.' :: frac =>
      if frac.all Char.isDigit && !(intPart.isEmpty && frac.isEmpty) then
        some (digitsToNat intPart, digitsToNat frac, frac.length)
      else none
  | _ => none

/-- Sign plus decimal parts of a `float()` literal (`true` = negative). -/
def floatParts? (s : String) : Option (Bool × Nat × Nat × Nat) :=
  match trimChars s.data with
  | '-' :: rest => (decParts? rest).map (fun p => (true, p))
  | '+' :: rest => (decParts? rest).map (fun p => (false, p))
  | l => (decParts? l).map (fun p => (false, p))

/-- The rational value of parsed float parts. -/
def partsToRat (p : Bool × Nat × Nat × Nat) : ℚ :=
  (cond p.1 (-1) 1) * ((p.2.1 : ℚ) + (p.2.2.1 : ℚ) / (10 : ℚ) ^ p.2.2.2)

/-- Python `float(s)` on the cleaned cells this program feeds it:
optional sign and a decimal literal; `none` models a raised `ValueError`. -/
def pyFloat? (s : String) : Option ℚ :=
  (floatParts? s).map partsToRat

/-- Python `int(x)` on a float value: truncation toward zero. -/
def truncRat (x : ℚ) : Int :=
  if 0 ≤ x then ⌊x⌋ else -(⌊-x⌋)

/-- `re.sub(r'[a-zA-Z]', '', s)`: drop ASCII letters. -/
def stripAlpha (s : String) : String :=
  String.mk (s.data.filter (fun c => ¬ c.isAlpha))

/-- Keep only digits: `re.sub(r'[^\d]', '', s)`. -/
def keepDigits (s : String) : String :=
  String.mk (s.data.filter Char.isDigit)

/-- Keep only digits and dots: `re.sub(r'[^\d.]', '', s)`. -/
def keepDigitsDot (s : String) : String :=
  String.mk (s.data.filter (fun c => c.isDigit ∨ c = '.'))

/-- Whether `needle` occurs at the start of `hay` (char-list version). -/
def startsWithChars : List Char → List Char → Bool
  | [], _ => true
  | _ :: _, [] => false
  | a :: as, b :: bs => a = b && startsWithChars as bs

/-- Whether `needle` occurs contiguously anywhere in `hay`. -/
def hasSubChars (needle : List Char) : List Char → Bool
  | [] => startsWithChars needle []
  | b :: bs => startsWithChars needle (b :: bs) || hasSubChars needle bs

/-- Python `needle in hay` on strings (substring containment). -/
def strContains (hay needle : String) : Bool :=
  hasSubChars needle.data hay.data

/-- Remove every (non-overlapping, left-to-right) occurrence of `pat`; the
`fuel` argument makes the recursion structural (callers pass the list
length, which always suffices since each step consumes a character). -/
def removeAllFuel (pat : List Char) : Nat → List Char → List Char
  | _, [] => []
  | 0, l => l
  | fuel + 1, c :: rest =>
      if pat ≠ [] ∧ startsWithChars pat (c :: rest) then
        removeAllFuel pat fuel (List.drop (pat.length - 1) rest)
      else c :: removeAllFuel pat fuel rest

/-- Python `s.replace(pat, '')` (the only replacement form the source uses). -/
def strRemove (s pat : String) : String :=
  String.mk (removeAllFuel pat.data s.data.length s.data)

/-! ## Data model -/

/-- One line of the equipment schedule: the dict built by
`extract_equipment_from_dataframe` / `parse_equipment_from_text`. -/
structure DrawingItem where
  no : String
  newEquipNum : String
  description : String
  qty : Int
  category : Option Int
  deriving Repr, DecidableEq

/-- One line of a vendor quote: the dict built by
`extract_quotes_from_dataframe` / `parse_quote_from_text`.  Note the source
records carry no not-in-contract flag. -/
structure QuoteItem where
  itemNo : String
  description : String
  qty : Int
  unitPrice : ℚ
  totalPrice : ℚ
  sourceFile : String
  deriving Repr, DecidableEq

/-- The module-level `SUPPLIER_CODES` table. -/
def SUPPLIER_CODES : List (Int × String) :=
  [(1, "IH SUPPLY / IH INSTALL"),
   (2, "IH SUPPLY / IH INSTALL (DH EQUIPMENT)"),
   (3, "IH SUPPLY / IH INSTALL (BIO MED)"),
   (4, "IH SUPPLY / VENDOR INSTALL"),
   (5, "CONTRACTOR SUPPLY / CONTRACTOR INSTALL"),
   (6, "CONTRACTOR SUPPLY / VENDOR INSTALL"),
   (7, "IH SUPPLY / CONTRACTOR INSTALL"),
   (8, "EXISTING / RELOCATED EQUIPMENT")]

/-- `SUPPLIER_CODES.get(cat, 'N/A') if cat else 'N/A'` (Python truthiness:
both `None` and `0` fall to the default). -/
def supplierDesc (cat : Option Int) : String :=
  match cat with
  | none => "N/A"
  | some c => if c = 0 then "N/A" else ((SUPPLIER_CODES.lookup c).getD "N/A")

/-! ## Item matcher (`match_quote_to_drawing`) -/

/-- Phase-1 predicate: trimmed, case-insensitive equality of item numbers. -/
def exactMatch (drawingNo : String) (q : QuoteItem) : Bool :=
  pyLower (pyStrip q.itemNo) = drawingNo

/-- Phase-2 key: `int(re.sub(r'[a-zA-Z]', '', item_no.strip()))`, `none` when
`int` would raise (the inner `try/except: pass`). -/
def numKey (s : String) : Option Int :=
  pyInt? (stripAlpha (pyStrip s))

/-- `match_quote_to_drawing(drawing_item, quotes)`: first an exact
case-insensitive scan, then a digits-only numeric scan, else `none`. -/
def match_quote_to_drawing (item : DrawingItem) (quotes : List QuoteItem) :
    Option QuoteItem :=
  let drawingNo := pyLower (pyStrip item.no)
  match quotes.find? (exactMatch drawingNo) with
  | some q => some q
  | none =>
      match pyInt? (stripAlpha drawingNo) with
      | none => none
      | some dn => quotes.find? (fun q => numKey q.itemNo = some dn)

/-! ## Classifier (`analyze_drawing_vs_quotes`) -/

/-- One analysis row of the dataframe returned by `analyze_drawing_vs_quotes`. -/
structure AnalysisRow where
  drawingNo : String
  newEquipNum : String
  description : String
  drawingQty : Int
  category : Option Int
  categoryDesc : String
  quoteItemNo : String
  quoteQty : Int
  unitPrice : ℚ
  totalPrice : ℚ
  quoteSource : String
  status : String
  issue : Option String
  deriving Repr, DecidableEq

/-- The status/issue decision chain of `analyze_drawing_vs_quotes`. -/
def classifyStatus (cat : Option Int) (description : String) (qty : Int)
    (m : Option QuoteItem) : String × Option String :=
  if cat = some 1 ∨ cat = some 2 ∨ cat = some 3 then
    ("IH Supply", some "IH handles supply & install")
  else if cat = some 8 then
    ("Existing", some "Existing/relocated")
  else if cat = none ∨ pyUpper description = "SPARE" then
    ("N/A", some "Spare or placeholder")
  else
    match m with
    | some q =>
        if q.qty = qty then ("Quoted", none)
        else ("Qty Mismatch",
              some ("Drawing: " ++ toString qty ++ ", Quote: " ++ toString q.qty))
    | none =>
        if cat = some 7 then
          ("Needs Install", some "IH supplies - needs install pricing")
        else if cat = some 5 ∨ cat = some 6 then
          ("MISSING", some "Critical - requires quote")
        else
          ("MISSING", some "Not found in quotes")

/-- One iteration of the loop body of `analyze_drawing_vs_quotes`. -/
def analyzeItem (item : DrawingItem) (quotes : List QuoteItem) : AnalysisRow :=
  let m := match_quote_to_drawing item quotes
  let si := classifyStatus item.category item.description item.qty m
  { drawingNo := item.no
    newEquipNum := item.newEquipNum
    description := item.description
    drawingQty := item.qty
    category := item.category
    categoryDesc := supplierDesc item.category
    quoteItemNo := match m with | some q => q.itemNo | none => "-"
    quoteQty := match m with | some q => q.qty | none => 0
    unitPrice := match m with | some q => q.unitPrice | none => 0
    totalPrice := match m with | some q => q.totalPrice | none => 0
    quoteSource := match m with | some q => q.sourceFile | none => "-"
    status := si.1
    issue := si.2 }

/-- `analyze_drawing_vs_quotes(drawing_schedule, quotes)`. -/
def analyze_drawing_vs_quotes (schedule : List DrawingItem)
    (quotes : List QuoteItem) : List AnalysisRow :=
  schedule.map (fun item => analyzeItem item quotes)

/-! ## Dataframe extraction -/

/-- A dataframe row: association list from normalized column name to the
`str()` of the cell (a missing/NaN cell reads back as the default or "nan"). -/
abbrev Row := List (String × String)

/-- Python `row.get(col, default)` followed by `str(...)`. -/
def rowGet (row : Row) (col default : String) : String :=
  match row.lookup col with
  | some v => v
  | none => default

/-- One `found[key]` search of `extract_equipment_from_dataframe`:
`col.lower().strip() in opts or any(o in col.lower() for o in opts)`,
first matching column wins. -/
def findColFor (cols : List String) (opts : List String) : Option String :=
  cols.find? (fun col =>
    opts.contains (pyStrip (pyLower col)) || opts.any (fun o => strContains (pyLower col) o))

/-- One `found[k]` search of `extract_quotes_from_dataframe`:
exact equality with a candidate only. -/
def findColExact (cols : List String) (opts : List String) : Option String :=
  cols.find? (fun c => opts.any (fun o => o = pyStrip (pyLower c)))

def equipNoOpts : List String :=
  ["no", "no.", "item", "item #", "item no", "item no.", "number", "#"]

def equipNumOpts : List String :=
  ["new equipment number", "equipment number", "equip num", "equip no"]

def equipDescOpts : List String :=
  ["description", "desc", "equipment", "name", "item description"]

def equipQtyOpts : List String :=
  ["qty", "qty.", "quantity", "count"]

def equipCatOpts : List String :=
  ["category", "cat", "supplier code", "code", "supplier"]

/-- The column assignment resolved by `extract_equipment_from_dataframe`. -/
structure EquipCols where
  no : String
  newEquipNum : Option String
  description : String
  qty : Option String
  category : Option String
  deriving Repr, DecidableEq

/-- Column resolution of `extract_equipment_from_dataframe`: keyword search
per field, then the positional fallback (first three columns) when `no` or
`description` is unresolved; `none` when they still are. -/
def resolveEquipCols (colsRaw : List String) : Option EquipCols :=
  let cols := colsRaw.map (fun c => pyLower (pyStrip c))
  let noF := findColFor cols equipNoOpts
  let neF := findColFor cols equipNumOpts
  let deF := findColFor cols equipDescOpts
  let qtF := findColFor cols equipQtyOpts
  let caF := findColFor cols equipCatOpts
  let triple :=
    if noF.isNone || deF.isNone then
      if 3 ≤ cols.length then (some (cols.get! 0), some (cols.get! 1), some (cols.get! 2))
      else (noF, neF, deF)
    else (noF, neF, deF)
  match triple with
  | (some n, ne, some d) =>
      some { no := n, newEquipNum := ne, description := d, qty := qtF, category := caF }
  | _ => none

def equipRejectNo : List String := ["nan", "", "no", "no.", "item"]

def equipRejectDesc : List String := ["nan", "", "description"]

/-- One iteration of the row loop of `extract_equipment_from_dataframe`;
`none` is the `continue` (header remnant, blank, or conversion exception). -/
def extractEquipRow (fc : EquipCols) (row : Row) : Option DrawingItem :=
  let no := pyStrip (rowGet row fc.no "")
  let desc := pyStrip (rowGet row fc.description "")
  if no = "" || equipRejectNo.contains (pyLower no)
      || desc = "" || equipRejectDesc.contains (pyLower desc) then
    none
  else
    let equipRaw := pyStrip (rowGet row (fc.newEquipNum.getD "") "-")
    let equipNum :=
      if equipRaw ≠ "" ∧ ¬ (["nan", ""].contains (pyLower equipRaw)) then equipRaw else "-"
    let qty : Int :=
      match fc.qty with
      | none => 1
      | some c =>
          match pyFloat? (keepDigitsDot (rowGet row c "1")) with
          | none => 1
          | some x => truncRat (if x = 0 then 1 else x)
    let cat : Option Int :=
      match fc.category with
      | none => none
      | some c =>
          let cleaned := keepDigits (rowGet row c "")
          if cleaned = "" then none else some ((digitsToNat cleaned.data : Int))
    some { no := no, newEquipNum := equipNum, description := desc, qty := qty, category := cat }

/-- The rows `extract_equipment_from_dataframe` accepts (empty when the
column mapping cannot be resolved, so the row loop never runs). -/
def acceptedEquipRows (cols : List String) (rows : List Row) : List DrawingItem :=
  match resolveEquipCols cols with
  | none => []
  | some fc => rows.filterMap (extractEquipRow fc)

/-- `extract_equipment_from_dataframe(df)`: `none` models the `return None`
paths (unresolvable mapping, or zero accepted rows). -/
def extract_equipment_from_dataframe (cols : List String) (rows : List Row) :
    Option (List DrawingItem) :=
  match resolveEquipCols cols with
  | none => none
  | some fc =>
      let l := rows.filterMap (extractEquipRow fc)
      if l = [] then none else some l

/-- The column assignment resolved by `extract_quotes_from_dataframe`
(every field optional; the row loop substitutes defaults). -/
structure QuoteCols where
  item : Option String
  description : Option String
  qty : Option String
  unitPrice : Option String
  totalPrice : Option String
  deriving Repr, DecidableEq

/-- Column resolution of `extract_quotes_from_dataframe` (exact match only,
no fallback). -/
def resolveQuoteCols (colsRaw : List String) : QuoteCols :=
  let cols := colsRaw.map (fun c => pyLower (pyStrip c))
  { item := findColExact cols ["item", "item no", "no", "no."]
    description := findColExact cols ["description", "desc", "equipment", "name"]
    qty := findColExact cols ["qty", "quantity"]
    unitPrice := findColExact cols ["sell", "unit price", "price"]
    totalPrice := findColExact cols ["sell total", "total", "total price", "amount"] }

def quoteRejectDesc : List String := ["nan", "", "nic"]

/-- One iteration of the row loop of `extract_quotes_from_dataframe`;
`none` is the `continue` (blank/`nan`/`NIC` description, or a float/int
conversion exception caught by the per-row `except`). -/
def extractQuoteRow (qc : QuoteCols) (filename : String) (row : Row) :
    Option QuoteItem :=
  let desc := pyStrip (rowGet row (qc.description.getD "") "")
  if desc = "" || quoteRejectDesc.contains (pyLower desc) then none
  else
    let item := pyStrip (rowGet row (qc.item.getD "") "")
    let qtyVal := pyStrip (strRemove (strRemove (rowGet row (qc.qty.getD "") "1") "ea") ",")
    match (if qtyVal = "" then some (1 : Int) else (pyFloat? qtyVal).map truncRat) with
    | none => none
    | some qty =>
        let upVal := pyStrip (strRemove (strRemove (rowGet row (qc.unitPrice.getD "") "0") "$") ",")
        match (if upVal = "" then some (0 : ℚ) else pyFloat? upVal) with
        | none => none
        | some up =>
            let tpVal :=
              pyStrip (strRemove (strRemove (rowGet row (qc.totalPrice.getD "") "0") "$") ",")
            match (if tpVal = "" then some (up * (qty : ℚ)) else pyFloat? tpVal) with
            | none => none
            | some tp =>
                some { itemNo := item, description := desc, qty := qty,
                       unitPrice := up, totalPrice := tp, sourceFile := filename }

/-- `extract_quotes_from_dataframe(df, filename)`: always returns a
(possibly empty) list; failing rows are skipped. -/
def extract_quotes_from_dataframe (cols : List String) (rows : List Row)
    (filename : String) : List QuoteItem :=
  rows.filterMap (extractQuoteRow (resolveQuoteCols cols) filename)

/-! ## De-duplication passes of `process_quote_file` / `process_drawing_file` -/

/-- The `seen`-set loop at the end of `process_quote_file`: keep a record
iff its `Item_No` is truthy (non-empty) and not seen before. -/
def uniqueQuotesGo (seen : List String) : List QuoteItem → List QuoteItem
  | [] => []
  | q :: rest =>
      if q.itemNo ≠ "" ∧ q.itemNo ∉ seen then
        q :: uniqueQuotesGo (q.itemNo :: seen) rest
      else uniqueQuotesGo seen rest

/-- The de-duplication pass of `process_quote_file` over the concatenated
per-sheet extraction results. -/
def process_quote_file_dedup (qs : List QuoteItem) : List QuoteItem :=
  uniqueQuotesGo [] qs

/-- The `seen`-set loop at the end of `process_drawing_file`: keep an item
iff its `No` was not seen before (no truthiness test here). -/
def uniqueEquipGo (seen : List String) : List DrawingItem → List DrawingItem
  | [] => []
  | e :: rest =>
      if e.no ∉ seen then e :: uniqueEquipGo (e.no :: seen) rest
      else uniqueEquipGo seen rest

/-- The de-duplication pass of `process_drawing_file`. -/
def process_drawing_file_dedup (es : List DrawingItem) : List DrawingItem :=
  uniqueEquipGo [] es

/-! ## Shared helper lemmas -/

/-- The fixed status taxonomy actually produced by `analyze_drawing_vs_quotes`. -/
def statusTaxonomy : List String :=
  ["IH Supply", "Existing", "N/A", "Quoted", "Qty Mismatch", "Needs Install", "MISSING"]

theorem classifyStatus_mem (cat : Option Int) (d : String) (n : Int)
    (m : Option QuoteItem) : (classifyStatus cat d n m).1 ∈ statusTaxonomy := by
  rcases m with _ | q <;> simp only [classifyStatus] <;> split_ifs <;>
    simp [statusTaxonomy]

theorem analyzeItem_status (item : DrawingItem) (quotes : List QuoteItem) :
    (analyzeItem item quotes).status =
      (classifyStatus item.category item.description item.qty
        (match_quote_to_drawing item quotes)).1 := rfl

theorem analyzeItem_issue (item : DrawingItem) (quotes : List QuoteItem) :
    (analyzeItem item quotes).issue =
      (classifyStatus item.category item.description item.qty
        (match_quote_to_drawing item quotes)).2 := rfl

theorem classifyStatus_cat123 (cat : Option Int) (d : String) (n : Int)
    (m : Option QuoteItem) (h : cat = some 1 ∨ cat = some 2 ∨ cat = some 3) :
    classifyStatus cat d n m = ("IH Supply", some "IH handles supply & install") := by
  unfold classifyStatus
  rw [if_pos h]

theorem classifyStatus_cat8 (cat : Option Int) (d : String) (n : Int)
    (m : Option QuoteItem) (h : cat = some 8) :
    classifyStatus cat d n m = ("Existing", some "Existing/relocated") := by
  subst h
  unfold classifyStatus
  norm_num

theorem classifyStatus_spare (cat : Option Int) (d : String) (n : Int)
    (m : Option QuoteItem) (h1 : ¬(cat = some 1 ∨ cat = some 2 ∨ cat = some 3))
    (h8 : cat ≠ some 8) (h : cat = none ∨ pyUpper d = "SPARE") :
    classifyStatus cat d n m = ("N/A", some "Spare or placeholder") := by
  unfold classifyStatus
  rw [if_neg h1, if_neg h8, if_pos h]

/-- Unpack `cat ∉ [some 1, some 2, some 3, some 8]`. -/
theorem not_mem_cats_unpack (cat : Option Int)
    (h : cat ∉ [some (1 : Int), some 2, some 3, some 8]) :
    ¬(cat = some 1 ∨ cat = some 2 ∨ cat = some 3) ∧ cat ≠ some 8 := by
  simp only [List.mem_cons, List.not_mem_nil, or_false] at h
  tauto

/-! ## C1 -/

/-- A spare-described item carrying supplier code 1. -/
def spareCat1Item : DrawingItem :=
  { no := "1", newEquipNum := "-", description := "SPARE", qty := 1, category := some 1 }

/-- A dash-described item carrying supplier code 5. -/
def dashCat5Item : DrawingItem :=
  { no := "3", newEquipNum := "-", description := "-", qty := 1, category := some 5 }

/-- C1 counterexample: the spare rule does not take precedence over the
supplier-code rules, and descriptions "-" (or "N/A", or merely containing
"SPARE") do not trigger it: a "SPARE" item with code 1 is classified
"IH Supply", and a "-" item with code 5 and no match is classified
"MISSING" with the critical-gap issue, not "N/A". -/
theorem c1_spare_counterexample :
    (analyzeItem spareCat1Item []).status = "IH Supply" ∧
    (analyzeItem spareCat1Item []).status ≠ "N/A" ∧
    (analyzeItem dashCat5Item []).status = "MISSING" ∧
    (analyzeItem dashCat5Item []).issue = some "Critical - requires quote" := by
  refine ⟨?_, ?_, ?_, ?_⟩ <;> decide

/-- C1 (amended): the spare/placeholder rule of `analyze_drawing_vs_quotes`
fires only third in precedence: for an item whose supplier code is not in
{1,2,3,8}, if the code is null or the uppercased description equals "SPARE"
exactly, the status is "N/A" with issue "Spare or placeholder", regardless
of the item's matched quote.  Descriptions "-" or "N/A" or ones merely
containing "SPARE" are not special in the classifier. -/
theorem c1_spare_rule (item : DrawingItem) (quotes : List QuoteItem)
    (hcat : item.category ∉ [some (1 : Int), some 2, some 3, some 8])
    (h : item.category = none ∨ pyUpper item.description = "SPARE") :
    (analyzeItem item quotes).status = "N/A" ∧
    (analyzeItem item quotes).issue = some "Spare or placeholder" := by
  obtain ⟨h123, h8⟩ := not_mem_cats_unpack item.category hcat
  rw [analyzeItem_status, analyzeItem_issue,
    classifyStatus_spare _ _ _ _ h123 h8 h]
  exact ⟨rfl, rfl⟩

/-- C1 witness for `c1_spare_rule` at a concrete null-category item. -/
theorem c1_spare_rule_witness :
    ((⟨"9", "-", "HOOD", 2, none⟩ : DrawingItem).category ∉
        [some (1 : Int), some 2, some 3, some 8]) ∧
    ((⟨"9", "-", "HOOD", 2, none⟩ : DrawingItem).category = none ∨
        pyUpper (⟨"9", "-", "HOOD", 2, none⟩ : DrawingItem).description = "SPARE") ∧
    (analyzeItem ⟨"9", "-", "HOOD", 2, none⟩ []).status = "N/A" ∧
    (analyzeItem ⟨"9", "-", "HOOD", 2, none⟩ []).issue = some "Spare or placeholder" :=
  ⟨by decide, Or.inl rfl,
   (c1_spare_rule ⟨"9", "-", "HOOD", 2, none⟩ [] (by decide) (Or.inl rfl)).1,
   (c1_spare_rule ⟨"9", "-", "HOOD", 2, none⟩ [] (by decide) (Or.inl rfl)).2⟩

/-! ## C2 -/

/-- An unmatched item with supplier code 8. -/
def cat8Item : DrawingItem :=
  { no := "5", newEquipNum := "-", description := "EXISTING RACK", qty := 1, category := some 8 }

/-- An unmatched item with supplier code 7. -/
def cat7Item : DrawingItem :=
  { no := "6", newEquipNum := "-", description := "HOOD", qty := 1, category := some 7 }

/-- An unmatched item with supplier code 1. -/
def cat1Item : DrawingItem :=
  { no := "7", newEquipNum := "-", description := "FRIDGE", qty := 1, category := some 1 }

/-- C2 counterexample: `analyze_drawing_vs_quotes` takes no
category-enforcement toggle — its supplier-code rules always fire, so the
claimed disabled run (in which these concrete unmatched, non-spare items
would all be generic "MISSING" and "Existing" would never appear) is not a
behaviour of the code: code 8 yields "Existing" and codes 7 and 1 yield
"Needs Install" and "IH Supply", never "MISSING". -/
theorem c2_toggle_counterexample :
    (analyzeItem cat8Item []).status = "Existing" ∧
    (analyzeItem cat7Item []).status = "Needs Install" ∧
    (analyzeItem cat7Item []).status ≠ "MISSING" ∧
    (analyzeItem cat1Item []).status = "IH Supply" ∧
    (analyzeItem cat1Item []).status ≠ "MISSING" := by
  refine ⟨?_, ?_, ?_, ?_, ?_⟩ <;> decide

/-- C2 (amended): `analyze_drawing_vs_quotes(drawing_schedule, quotes)` has
no category-enforcement parameter; the supplier-code rules are applied on
every run.  Every produced status lies in the fixed seven-element taxonomy
(which contains neither "Owner Supply" nor "Needs Pricing" — the code's
names are "IH Supply" and "Needs Install"), and codes 1–3 and 8
unconditionally yield "IH Supply" and "Existing". -/
theorem c2_no_toggle (item : DrawingItem) (quotes : List QuoteItem) :
    (analyzeItem item quotes).status ∈ statusTaxonomy ∧
    (analyzeItem item quotes).status ≠ "Owner Supply" ∧
    (analyzeItem item quotes).status ≠ "Needs Pricing" ∧
    (item.category = some 8 → (analyzeItem item quotes).status = "Existing") ∧
    ((item.category = some 1 ∨ item.category = some 2 ∨ item.category = some 3) →
      (analyzeItem item quotes).status = "IH Supply") := by
  have hmem := classifyStatus_mem item.category item.description item.qty
    (match_quote_to_drawing item quotes)
  rw [analyzeItem_status]
  refine ⟨hmem, ?_, ?_, ?_, ?_⟩
  · intro heq
    rw [heq] at hmem
    simp [statusTaxonomy] at hmem
  · intro heq
    rw [heq] at hmem
    simp [statusTaxonomy] at hmem
  · intro h8
    rw [classifyStatus_cat8 _ _ _ _ h8]
  · intro h123
    rw [classifyStatus_cat123 _ _ _ _ h123]

/-- C2 witness for `c2_no_toggle` at a concrete code-8 item. -/
theorem c2_no_toggle_witness :
    cat8Item.category = some 8 ∧ (analyzeItem cat8Item []).status = "Existing" :=
  ⟨rfl, (c2_no_toggle cat8Item []).2.2.2.1 rfl⟩

/-! ## C5 -/

theorem classifyStatus_matched (cat : Option Int) (d : String) (n : Int)
    (q : QuoteItem) (h1 : ¬(cat = some 1 ∨ cat = some 2 ∨ cat = some 3))
    (h8 : cat ≠ some 8) (hsp : ¬(cat = none ∨ pyUpper d = "SPARE")) :
    classifyStatus cat d n (some q) =
      if q.qty = n then ("Quoted", none)
      else ("Qty Mismatch",
            some ("Drawing: " ++ toString n ++ ", Quote: " ++ toString q.qty)) := by
  unfold classifyStatus
  rw [if_neg h1, if_neg h8, if_neg hsp]

theorem classifyStatus_unmatched (cat : Option Int) (d : String) (n : Int)
    (h1 : ¬(cat = some 1 ∨ cat = some 2 ∨ cat = some 3))
    (h8 : cat ≠ some 8) (hsp : ¬(cat = none ∨ pyUpper d = "SPARE")) :
    classifyStatus cat d n none =
      if cat = some 7 then ("Needs Install", some "IH supplies - needs install pricing")
      else if cat = some 5 ∨ cat = some 6 then ("MISSING", some "Critical - requires quote")
      else ("MISSING", some "Not found in quotes") := by
  unfold classifyStatus
  rw [if_neg h1, if_neg h8, if_neg hsp]

/-- C5: for an item no earlier rule claims (code not in {1,2,3,8}, code not
null, description not "SPARE") whose matcher result is `some q`: equal
quantities give status "Quoted" with a null issue, and unequal quantities
give status "Qty Mismatch" with the exact issue string
"Drawing: {d}, Quote: {q}". -/
theorem c5_matched_qty_rule (item : DrawingItem) (quotes : List QuoteItem)
    (q : QuoteItem)
    (hcat : item.category ∉ [some (1 : Int), some 2, some 3, some 8])
    (hnone : item.category ≠ none)
    (hdesc : pyUpper item.description ≠ "SPARE")
    (hm : match_quote_to_drawing item quotes = some q) :
    (q.qty = item.qty →
      (analyzeItem item quotes).status = "Quoted" ∧
      (analyzeItem item quotes).issue = none) ∧
    (q.qty ≠ item.qty →
      (analyzeItem item quotes).status = "Qty Mismatch" ∧
      (analyzeItem item quotes).issue =
        some ("Drawing: " ++ toString item.qty ++ ", Quote: " ++ toString q.qty)) := by
  obtain ⟨h123, h8⟩ := not_mem_cats_unpack item.category hcat
  have hsp : ¬(item.category = none ∨ pyUpper item.description = "SPARE") :=
    not_or.mpr ⟨hnone, hdesc⟩
  rw [analyzeItem_status, analyzeItem_issue, hm,
    classifyStatus_matched _ _ _ _ h123 h8 hsp]
  constructor
  · intro h
    rw [if_pos h]
    exact ⟨rfl, rfl⟩
  · intro h
    rw [if_neg h]
    exact ⟨rfl, rfl⟩

/-- The drawing item of end-to-end scenario B. -/
def c5Item : DrawingItem :=
  { no := "2", newEquipNum := "-", description := "WALK IN", qty := 1, category := some 5 }

/-- The quote of end-to-end scenario B (quantity 2 against drawing 1). -/
def c5Quote : QuoteItem :=
  { itemNo := "2", description := "WALK IN", qty := 2, unitPrice := 0, totalPrice := 0,
    sourceFile := "q1.xlsx" }

/-- C5 witness for `c5_matched_qty_rule` at scenario B. -/
theorem c5_matched_qty_rule_witness :
    match_quote_to_drawing c5Item [c5Quote] = some c5Quote ∧
    (analyzeItem c5Item [c5Quote]).status = "Qty Mismatch" ∧
    (analyzeItem c5Item [c5Quote]).issue = some "Drawing: 1, Quote: 2" :=
  ⟨by decide,
   ((c5_matched_qty_rule c5Item [c5Quote] c5Quote (by decide) (by decide)
      (by decide) (by decide)).2 (by decide)).1,
   (((c5_matched_qty_rule c5Item [c5Quote] c5Quote (by decide) (by decide)
      (by decide) (by decide)).2 (by decide)).2).trans (by decide)⟩

/-! ## C6 -/

/-- C6 counterexample: an unmatched code-7 item is classified
"Needs Install" with issue "IH supplies - needs install pricing" — not the
claimed "Needs Pricing" / "Owner supplies - needs install pricing". -/
theorem c6_unmatched_counterexample :
    (analyzeItem cat7Item []).status = "Needs Install" ∧
    (analyzeItem cat7Item []).status ≠ "Needs Pricing" ∧
    (analyzeItem cat7Item []).issue = some "IH supplies - needs install pricing" ∧
    (analyzeItem cat7Item []).issue ≠ some "Owner supplies - needs install pricing" := by
  refine ⟨?_, ?_, ?_, ?_⟩ <;> decide

/-- C6 (amended): for an item no earlier rule claims and with no matching
quote item: code 7 gives status "Needs Install" with issue
"IH supplies - needs install pricing"; codes 5 and 6 give "MISSING" with
"Critical - requires quote"; every other code gives "MISSING" with
"Not found in quotes". -/
theorem c6_unmatched_rule (item : DrawingItem) (quotes : List QuoteItem)
    (hcat : item.category ∉ [some (1 : Int), some 2, some 3, some 8])
    (hnone : item.category ≠ none)
    (hdesc : pyUpper item.description ≠ "SPARE")
    (hm : match_quote_to_drawing item quotes = none) :
    (item.category = some 7 →
      (analyzeItem item quotes).status = "Needs Install" ∧
      (analyzeItem item quotes).issue = some "IH supplies - needs install pricing") ∧
    ((item.category = some 5 ∨ item.category = some 6) →
      (analyzeItem item quotes).status = "MISSING" ∧
      (analyzeItem item quotes).issue = some "Critical - requires quote") ∧
    (item.category ∉ [some (5 : Int), some 6, some 7] →
      (analyzeItem item quotes).status = "MISSING" ∧
      (analyzeItem item quotes).issue = some "Not found in quotes") := by
  obtain ⟨h123, h8⟩ := not_mem_cats_unpack item.category hcat
  have hsp : ¬(item.category = none ∨ pyUpper item.description = "SPARE") :=
    not_or.mpr ⟨hnone, hdesc⟩
  rw [analyzeItem_status, analyzeItem_issue,  hm,
    classifyStatus_unmatched _ _ _ h123 h8 hsp]
  refine ⟨?_, ?_, ?_⟩
  · intro h7
    rw [if_pos h7]
    exact ⟨rfl, rfl⟩
  · intro h56
    have h7 : item.category ≠ some 7 := by
      rcases h56 with h | h <;> rw [h] <;> decide
    rw [if_neg h7, if_pos h56]
    exact ⟨rfl, rfl⟩
  · intro hout
    simp only [List.mem_cons, List.not_mem_nil, or_false] at hout
    push_neg at hout
    rw [if_neg hout.2.2, if_neg (not_or.mpr ⟨hout.1, hout.2.1⟩)]
    exact ⟨rfl, rfl⟩

/-- The drawing item of end-to-end scenario D. -/
def c6Item : DrawingItem :=
  { no := "15", newEquipNum := "-", description := "THREE DOOR COOLER", qty := 1,
    category := some 6 }

/-- C6 witness for `c6_unmatched_rule` at scenario D. -/
theorem c6_unmatched_rule_witness :
    match_quote_to_drawing c6Item [] = none ∧
    (analyzeItem c6Item []).status = "MISSING" ∧
    (analyzeItem c6Item []).issue = some "Critical - requires quote" :=
  ⟨by decide,
   ((c6_unmatched_rule c6Item [] (by decide) (by decide) (by decide)
      (by decide)).2.1 (Or.inr rfl)).1,
   ((c6_unmatched_rule c6Item [] (by decide) (by decide) (by decide)
      (by decide)).2.1 (Or.inr rfl)).2⟩

/-! ## C10 -/

/-- C10: a null-category item is always classified "N/A" /
"Spare or placeholder" (the quote match, if any, still has its fields copied
into the result row), and an unmatched item's result row carries the
placeholder quote fields "-", 0, 0, 0, "-". -/
theorem c10_null_category_and_defaults (item : DrawingItem) (quotes : List QuoteItem) :
    (item.category = none →
      (analyzeItem item quotes).status = "N/A" ∧
      (analyzeItem item quotes).issue = some "Spare or placeholder" ∧
      (match_quote_to_drawing item quotes).elim True (fun q =>
        (analyzeItem item quotes).quoteItemNo = q.itemNo ∧
        (analyzeItem item quotes).quoteQty = q.qty ∧
        (analyzeItem item quotes).unitPrice = q.unitPrice ∧
        (analyzeItem item quotes).totalPrice = q.totalPrice ∧
        (analyzeItem item quotes).quoteSource = q.sourceFile)) ∧
    (match_quote_to_drawing item quotes = none →
      (analyzeItem item quotes).quoteItemNo = "-" ∧
      (analyzeItem item quotes).quoteQty = 0 ∧
      (analyzeItem item quotes).unitPrice = 0 ∧
      (analyzeItem item quotes).totalPrice = 0 ∧
      (analyzeItem item quotes).quoteSource = "-") := by
  constructor
  · intro hnone
    have h123 : ¬(item.category = some 1 ∨ item.category = some 2 ∨ item.category = some 3) := by
      rw [hnone]
      decide
    have h8 : item.category ≠ some 8 := by
      rw [hnone]
      decide
    refine ⟨?_, ?_, ?_⟩
    · rw [analyzeItem_status, classifyStatus_spare _ _ _ _ h123 h8 (Or.inl hnone)]
    · rw [analyzeItem_issue, classifyStatus_spare _ _ _ _ h123 h8 (Or.inl hnone)]
    · rcases hm : match_quote_to_drawing item quotes with _ | q
      · exact trivial
      · simp only [Option.elim]
        simp [analyzeItem, hm]
  · intro hm
    simp [analyzeItem, hm]

/-- The null-category item for the C10 witness. -/
def c10Item : DrawingItem :=
  { no := "4", newEquipNum := "-", description := "SPARE", qty := 1, category := none }

/-- A quote that matches `c10Item`. -/
def c10Quote : QuoteItem :=
  { itemNo := "4", description := "THING", qty := 3, unitPrice := 0, totalPrice := 0,
    sourceFile := "q2.pdf" }

/-- An unmatched code-4 item for the C10 witness's default-fields part. -/
def c10Unmatched : DrawingItem :=
  { no := "99", newEquipNum := "-", description := "X", qty := 1, category := some 4 }

/-- C10 witness for `c10_null_category_and_defaults` at concrete items. -/
theorem c10_witness :
    c10Item.category = none ∧
    match_quote_to_drawing c10Item [c10Quote] = some c10Quote ∧
    (analyzeItem c10Item [c10Quote]).status = "N/A" ∧
    (analyzeItem c10Item [c10Quote]).quoteQty = c10Quote.qty ∧
    (analyzeItem c10Item [c10Quote]).totalPrice = c10Quote.totalPrice ∧
    match_quote_to_drawing c10Unmatched [] = none ∧
    (analyzeItem c10Unmatched []).quoteItemNo = "-" ∧
    (analyzeItem c10Unmatched []).totalPrice = 0 := by
  have hm : match_quote_to_drawing c10Item [c10Quote] = some c10Quote := by decide
  have h1 := (c10_null_category_and_defaults c10Item [c10Quote]).1 rfl
  have h2 := (c10_null_category_and_defaults c10Unmatched []).2 (by decide)
  have hf := h1.2.2
  rw [hm] at hf
  simp only [Option.elim] at hf
  exact ⟨rfl, hm, h1.1, hf.2.1, hf.2.2.2.1, by decide, h2.1, h2.2.2.2.1⟩

/-! ## C4 -/

/-- C4: the matcher first scans for a trimmed case-insensitive exact
item-number match and returns the earliest one, never consulting the numeric
rule; only with no exact match does it strip letters from both identifiers
and return the first numeric equal (or `none`, which is an ordinary value,
not an error). -/
theorem c4_matcher (item : DrawingItem) (quotes : List QuoteItem) :
    ((∃ q ∈ quotes, exactMatch (pyLower (pyStrip item.no)) q) →
      ∃ pre q post, quotes = pre ++ q :: post ∧
        exactMatch (pyLower (pyStrip item.no)) q = true ∧
        (∀ x ∈ pre, exactMatch (pyLower (pyStrip item.no)) x = false) ∧
        match_quote_to_drawing item quotes = some q) ∧
    ((∀ q ∈ quotes, exactMatch (pyLower (pyStrip item.no)) q = false) →
      match_quote_to_drawing item quotes =
        (pyInt? (stripAlpha (pyLower (pyStrip item.no)))).bind
          (fun dn => quotes.find? (fun q => numKey q.itemNo = some dn))) := by
  constructor
  · rintro ⟨q0, hq0, hp⟩
    have hsome : (quotes.find? (exactMatch (pyLower (pyStrip item.no)))).isSome :=
      List.find?_isSome.mpr ⟨q0, hq0, hp⟩
    obtain ⟨q, hq⟩ := Option.isSome_iff_exists.mp hsome
    obtain ⟨hpq, s, t, heq, hall⟩ := List.find?_eq_some.mp hq
    refine ⟨s, q, t, heq, hpq, ?_, ?_⟩
    · intro x hx
      have := hall x hx
      simpa using this
    · simp only [match_quote_to_drawing, hq]
  · intro hnone
    have hfind : quotes.find? (exactMatch (pyLower (pyStrip item.no))) = none := by
      rw [List.find?_eq_none]
      intro x hx
      simp [hnone x hx]
    simp only [match_quote_to_drawing, hfind]
    rcases pyInt? (stripAlpha (pyLower (pyStrip item.no))) with _ | dn <;> rfl

/-- An item whose (padded) number exact-matches two quotes. -/
def c4Item : DrawingItem :=
  { no := " 2 ", newEquipNum := "-", description := "WALK IN", qty := 1, category := some 5 }

def c4QuoteA : QuoteItem :=
  { itemNo := "2", description := "A", qty := 1, unitPrice := 0, totalPrice := 0,
    sourceFile := "qa" }

def c4QuoteB : QuoteItem :=
  { itemNo := "2", description := "B", qty := 1, unitPrice := 0, totalPrice := 0,
    sourceFile := "qb" }

/-- An item ("1a") with only a numeric match ("1"). -/
def c4NumItem : DrawingItem :=
  { no := "1a", newEquipNum := "-", description := "X", qty := 1, category := some 5 }

def c4NumQuote : QuoteItem :=
  { itemNo := "1", description := "C", qty := 1, unitPrice := 0, totalPrice := 0,
    sourceFile := "qc" }

/-- C4 witness for `c4_matcher`: both phases at concrete inputs. -/
theorem c4_matcher_witness :
    (∃ q ∈ [c4QuoteA, c4QuoteB], exactMatch (pyLower (pyStrip c4Item.no)) q) ∧
    (∃ pre q post, [c4QuoteA, c4QuoteB] = pre ++ q :: post ∧
        exactMatch (pyLower (pyStrip c4Item.no)) q = true ∧
        (∀ x ∈ pre, exactMatch (pyLower (pyStrip c4Item.no)) x = false) ∧
        match_quote_to_drawing c4Item [c4QuoteA, c4QuoteB] = some q) ∧
    (∀ q ∈ [c4NumQuote], exactMatch (pyLower (pyStrip c4NumItem.no)) q = false) ∧
    match_quote_to_drawing c4NumItem [c4NumQuote] =
      (pyInt? (stripAlpha (pyLower (pyStrip c4NumItem.no)))).bind
        (fun dn => [c4NumQuote].find? (fun q => numKey q.itemNo = some dn)) :=
  ⟨⟨c4QuoteA, by decide, by decide⟩,
   (c4_matcher c4Item [c4QuoteA, c4QuoteB]).1 ⟨c4QuoteA, by decide, by decide⟩,
   by decide,
   (c4_matcher c4NumItem [c4NumQuote]).2 (by decide)⟩

/-! ## C3 -/

/-- The quote-table header used in the C3/C7 fixtures. -/
def quoteColsEx : List String := ["item", "description", "qty", "sell", "sell total"]

/-- A quote row whose item number is the range "11-23". -/
def rangeRow : Row :=
  [("item", "11-23"), ("description", "SHELVING"), ("qty", "1"), ("sell", ""), ("sell total", "")]

/-- C3 counterexample: a quote row with item number "11-23" is emitted as a
single record whose item number is still the verbatim "11-23" — no 13-record
synthetic expansion (and the records carry no not-in-contract flag at all). -/
theorem c3_range_counterexample :
    ((extract_quotes_from_dataframe quoteColsEx [rangeRow] "q1.xlsx").map QuoteItem.itemNo)
        = ["11-23"] ∧
    (extract_quotes_from_dataframe quoteColsEx [rangeRow] "q1.xlsx").length = 1 ∧
    (extract_quotes_from_dataframe quoteColsEx [rangeRow] "q1.xlsx").length ≠ 13 := by
  refine ⟨?_, ?_, ?_⟩ <;> decide

theorem extractQuoteRow_itemNo (qc : QuoteCols) (fn : String) (row : Row)
    (q : QuoteItem) (h : extractQuoteRow qc fn row = some q) :
    q.itemNo = pyStrip (rowGet row (qc.item.getD "") "") := by
  simp only [extractQuoteRow] at h
  split at h
  · exact absurd h (by simp)
  · split at h
    · exact absurd h (by simp)
    · split at h
      · exact absurd h (by simp)
      · split at h
        · exact absurd h (by simp)
        · injection h with h
          rw [← h]

/-- C3 (amended): quote extraction performs no range expansion: each input
row yields at most one record, and an emitted record's item number is the
verbatim (trimmed) cell content — "11-23" stays "11-23"; in the PDF text
path a "11-23 NIC" line is skipped outright. -/
theorem c3_no_range_expansion (cols : List String) (rows : List Row) (fn : String) :
    (extract_quotes_from_dataframe cols rows fn).length ≤ rows.length ∧
    ∀ row ∈ rows,
      ((extractQuoteRow (resolveQuoteCols cols) fn row).map QuoteItem.itemNo).getD
          (pyStrip (rowGet row ((resolveQuoteCols cols).item.getD "") "")) =
        pyStrip (rowGet row ((resolveQuoteCols cols).item.getD "") "") := by
  constructor
  · exact List.length_filterMap_le _ _
  · intro row _
    rcases h : extractQuoteRow (resolveQuoteCols cols) fn row with _ | q
    · rfl
    · exact extractQuoteRow_itemNo _ _ _ _ h

/-- C3 witness for `c3_no_range_expansion` at the range row. -/
theorem c3_no_range_expansion_witness :
    rangeRow ∈ [rangeRow] ∧
    (extract_quotes_from_dataframe quoteColsEx [rangeRow] "q1.xlsx").length ≤ 1 ∧
    ((extractQuoteRow (resolveQuoteCols quoteColsEx) "q1.xlsx" rangeRow).map
        QuoteItem.itemNo).getD
        (pyStrip (rowGet rangeRow ((resolveQuoteCols quoteColsEx).item.getD "") "")) =
      pyStrip (rowGet rangeRow ((resolveQuoteCols quoteColsEx).item.getD "") "") :=
  ⟨by decide,
   (c3_no_range_expansion quoteColsEx [rangeRow] "q1.xlsx").1,
   (c3_no_range_expansion quoteColsEx [rangeRow] "q1.xlsx").2 rangeRow (by decide)⟩

/-! ## C7 -/

/-- A quote row with a missing unit price but a known total and quantity. -/
def c7Row : Row :=
  [("item", "1"), ("description", "WIDGET"), ("qty", "2"), ("sell", ""), ("sell total", "100.00")]

/-- C7 counterexample: the dataframe extractor never derives the unit price
from the total: with unit missing, total 100.00 and quantity 2 the emitted
record has unit price 0, not 100/2. -/
theorem c7_unit_not_derived_counterexample :
    extractQuoteRow (resolveQuoteCols quoteColsEx) "q.xlsx" c7Row =
      some { itemNo := "1", description := "WIDGET", qty := 2,
             unitPrice := 0, totalPrice := 100, sourceFile := "q.xlsx" } ∧
    (0 : ℚ) ≠ 100 / 2 := by
  constructor
  · have h : extractQuoteRow (resolveQuoteCols quoteColsEx) "q.xlsx" c7Row =
        some { itemNo := "1", description := "WIDGET",
               qty := truncRat (partsToRat (false, 2, 0, 0)),
               unitPrice := 0,
               totalPrice := partsToRat (false, 100, 0, 2),
               sourceFile := "q.xlsx" } := rfl
    rw [h]
    norm_num [truncRat, partsToRat]
  · norm_num

/-- C7 (amended): price completion in `extract_quotes_from_dataframe` is
one-directional: when the cleaned total-price cell is empty the emitted
record satisfies total = unit × qty, but when the cleaned unit-price cell is
empty the unit price is simply 0 — it is never derived as total / qty there
(that derivation exists only in `parse_quote_from_text`'s ITEM TOTAL
handling). -/
theorem c7_price_completion (qc : QuoteCols) (fn : String) (row : Row)
    (q : QuoteItem) (h : extractQuoteRow qc fn row = some q) :
    (pyStrip (strRemove (strRemove (rowGet row (qc.totalPrice.getD "") "0") "$") ",") = "" →
      q.totalPrice = q.unitPrice * (q.qty : ℚ)) ∧
    (pyStrip (strRemove (strRemove (rowGet row (qc.unitPrice.getD "") "0") "$") ",") = "" →
      q.unitPrice = 0) := by
  simp only [extractQuoteRow] at h
  split at h
  · exact absurd h (by simp)
  split at h
  next heq1 => exact absurd h (by simp)
  next qtyv heq1 =>
  split at h
  next heq2 => exact absurd h (by simp)
  next upv heq2 =>
  split at h
  next heq3 => exact absurd h (by simp)
  next tpv heq3 =>
  injection h with h
  subst h
  refine ⟨?_, ?_⟩
  · intro htpEmpty
    rw [if_pos htpEmpty] at heq3
    injection heq3 with heq3
    exact heq3.symm
  · intro hupEmpty
    rw [if_pos hupEmpty] at heq2
    injection heq2 with heq2
    exact heq2.symm

/-- A quote row with a missing total price, unit 50.00, quantity 2. -/
def c7WRow : Row :=
  [("item", "3"), ("description", "TABLE"), ("qty", "2"), ("sell", "50.00"), ("sell total", "")]

/-- The record `extract_quotes_from_dataframe` emits for `c7WRow`, with its
price fields in unreduced parsed form. -/
def c7WItem : QuoteItem :=
  { itemNo := "3", description := "TABLE",
    qty := truncRat (partsToRat (false, 2, 0, 0)),
    unitPrice := partsToRat (false, 50, 0, 2),
    totalPrice := partsToRat (false, 50, 0, 2) * ((truncRat (partsToRat (false, 2, 0, 0)) : Int) : ℚ),
    sourceFile := "qw" }

/-- The record emitted for `c7Row`, in unreduced parsed form. -/
def c7RawItem : QuoteItem :=
  { itemNo := "1", description := "WIDGET",
    qty := truncRat (partsToRat (false, 2, 0, 0)),
    unitPrice := 0,
    totalPrice := partsToRat (false, 100, 0, 2),
    sourceFile := "q.xlsx" }

/-- C7 witness for `c7_price_completion` at both concrete rows. -/
theorem c7_price_completion_witness :
    extractQuoteRow (resolveQuoteCols quoteColsEx) "qw" c7WRow = some c7WItem ∧
    pyStrip (strRemove (strRemove
        (rowGet c7WRow ((resolveQuoteCols quoteColsEx).totalPrice.getD "") "0") "$") ",") = "" ∧
    c7WItem.totalPrice = c7WItem.unitPrice * (c7WItem.qty : ℚ) ∧
    extractQuoteRow (resolveQuoteCols quoteColsEx) "q.xlsx" c7Row = some c7RawItem ∧
    pyStrip (strRemove (strRemove
        (rowGet c7Row ((resolveQuoteCols quoteColsEx).unitPrice.getD "") "0") "$") ",") = "" ∧
    c7RawItem.unitPrice = 0 :=
  ⟨rfl, rfl,
   (c7_price_completion (resolveQuoteCols quoteColsEx) "qw" c7WRow c7WItem rfl).1 rfl,
   rfl, rfl,
   (c7_price_completion (resolveQuoteCols quoteColsEx) "q.xlsx" c7Row c7RawItem rfl).2 rfl⟩

/-! ## C8 -/

/-- C8: both dataframe extractors are total (modelled by `Option`-valued row
functions): a row whose processing fails is skipped and the remaining rows
are still processed; drawing extraction signals "no data" exactly when zero
rows were accepted (including the unresolvable-mapping case, where the row
loop never runs); quote extraction always returns the (possibly empty) list
of accepted rows. -/
theorem c8_skip_and_failure :
    (∀ (fc : EquipCols) (row : Row) (rows : List Row),
        extractEquipRow fc row = none →
        (row :: rows).filterMap (extractEquipRow fc) =
          rows.filterMap (extractEquipRow fc)) ∧
    (∀ (cols : List String) (rows : List Row),
        extract_equipment_from_dataframe cols rows = none ↔
          acceptedEquipRows cols rows = []) ∧
    (∀ (qc : QuoteCols) (fn : String) (row : Row) (rows : List Row),
        extractQuoteRow qc fn row = none →
        (row :: rows).filterMap (extractQuoteRow qc fn) =
          rows.filterMap (extractQuoteRow qc fn)) ∧
    (∀ (cols : List String) (rows : List Row) (fn : String),
        extract_quotes_from_dataframe cols rows fn =
          rows.filterMap (extractQuoteRow (resolveQuoteCols cols) fn)) := by
  refine ⟨?_, ?_, ?_, ?_⟩
  · intro fc row rows h
    exact List.filterMap_cons_none h
  · intro cols rows
    unfold extract_equipment_from_dataframe acceptedEquipRows
    rcases resolveEquipCols cols with _ | fc
    · simp
    · by_cases h : rows.filterMap (extractEquipRow fc) = [] <;> simp [h]
  · intro qc fn row rows h
    exact List.filterMap_cons_none h
  · intro cols rows fn
    rfl

/-- Header of a two-column drawing table. -/
def equipColsEx : List String := ["no", "description"]

/-- The column assignment `resolveEquipCols` finds for `equipColsEx`. -/
def eqFcEx : EquipCols :=
  { no := "no", newEquipNum := none, description := "description",
    qty := none, category := none }

/-- A header-remnant drawing row (skipped) and a NIC quote row (skipped). -/
def badEquipRow : Row := [("no", "nan"), ("description", "x")]

def badQuoteRow : Row := [("item", "9"), ("description", "NIC")]

/-- C8 witness for `c8_skip_and_failure` at concrete skipped rows. -/
theorem c8_skip_and_failure_witness :
    extractEquipRow eqFcEx badEquipRow = none ∧
    [badEquipRow].filterMap (extractEquipRow eqFcEx) =
      List.filterMap (extractEquipRow eqFcEx) [] ∧
    (extract_equipment_from_dataframe equipColsEx [badEquipRow] = none ↔
      acceptedEquipRows equipColsEx [badEquipRow] = []) ∧
    extractQuoteRow (resolveQuoteCols quoteColsEx) "f" badQuoteRow = none ∧
    [badQuoteRow].filterMap (extractQuoteRow (resolveQuoteCols quoteColsEx) "f") =
      List.filterMap (extractQuoteRow (resolveQuoteCols quoteColsEx) "f") [] :=
  ⟨by decide,
   c8_skip_and_failure.1 eqFcEx badEquipRow [] (by decide),
   c8_skip_and_failure.2.1 equipColsEx [badEquipRow],
   by decide,
   c8_skip_and_failure.2.2.1 (resolveQuoteCols quoteColsEx) "f" badQuoteRow [] (by decide)⟩

/-! ## C9 -/

theorem uniqueQuotesGo_spec (qs : List QuoteItem) :
    ∀ (seen : List String), ∀ q ∈ uniqueQuotesGo seen qs,
      q.itemNo ≠ "" ∧ q.itemNo ∉ seen ∧
        qs.find? (fun x => x.itemNo = q.itemNo) = some q := by
  induction qs with
  | nil =>
      intro seen q hq
      simp [uniqueQuotesGo] at hq
  | cons a rest ih =>
      intro seen q hq
      by_cases ha : a.itemNo ≠ "" ∧ a.itemNo ∉ seen
      · rw [uniqueQuotesGo, if_pos ha] at hq
        rcases List.mem_cons.mp hq with rfl | hq2
        · exact ⟨ha.1, ha.2, List.find?_cons_of_pos _ (by simp)⟩
        · obtain ⟨h1, h2, h3⟩ := ih (a.itemNo :: seen) q hq2
          have hne : a.itemNo ≠ q.itemNo := by
            intro he
            exact h2 (by rw [← he]; exact List.mem_cons_self _ _)
          refine ⟨h1, fun hs => h2 (List.mem_cons_of_mem _ hs), ?_⟩
          rw [List.find?_cons_of_neg _ (by simp [hne]), h3]
      · rw [uniqueQuotesGo, if_neg ha] at hq
        obtain ⟨h1, h2, h3⟩ := ih seen q hq
        have hne : a.itemNo ≠ q.itemNo := by
          intro he
          rcases not_and_or.mp ha with h | h
          · exact h1 (by rw [← he]; exact of_not_not h)
          · exact h2 (he ▸ of_not_not h)
        rw [List.find?_cons_of_neg _ (by simp [hne]), h3]
        exact ⟨h1, h2, rfl⟩

theorem uniqueQuotesGo_covers (qs : List QuoteItem) :
    ∀ (seen : List String), ∀ q ∈ qs, q.itemNo ≠ "" → q.itemNo ∉ seen →
      ∃ r ∈ uniqueQuotesGo seen qs, r.itemNo = q.itemNo := by
  induction qs with
  | nil => simp
  | cons a rest ih =>
      intro seen q hq hne hseen
      by_cases ha : a.itemNo ≠ "" ∧ a.itemNo ∉ seen
      · rw [uniqueQuotesGo, if_pos ha]
        rcases List.mem_cons.mp hq with rfl | hq2
        · exact ⟨q, List.mem_cons_self _ _, rfl⟩
        · by_cases hkey : q.itemNo = a.itemNo
          · exact ⟨a, List.mem_cons_self _ _, hkey.symm⟩
          · obtain ⟨r, hr, hrk⟩ := ih (a.itemNo :: seen) q hq2 hne (by
              intro hmem
              rcases List.mem_cons.mp hmem with h | h
              · exact hkey h
              · exact hseen h)
            exact ⟨r, List.mem_cons_of_mem _ hr, hrk⟩
      · rw [uniqueQuotesGo, if_neg ha]
        rcases List.mem_cons.mp hq with rfl | hq2
        · exact absurd ⟨hne, hseen⟩ ha
        · exact ih seen q hq2 hne hseen

theorem uniqueQuotesGo_pairwise (qs : List QuoteItem) :
    ∀ seen, (uniqueQuotesGo seen qs).Pairwise (fun a b => a.itemNo ≠ b.itemNo) := by
  induction qs with
  | nil =>
      intro seen
      simp [uniqueQuotesGo]
  | cons a rest ih =>
      intro seen
      by_cases ha : a.itemNo ≠ "" ∧ a.itemNo ∉ seen
      · rw [uniqueQuotesGo, if_pos ha]
        refine List.Pairwise.cons ?_ (ih _)
        intro b hb he
        exact (uniqueQuotesGo_spec rest (a.itemNo :: seen) b hb).2.1
          (by rw [← he]; exact List.mem_cons_self _ _)
      · rw [uniqueQuotesGo, if_neg ha]
        exact ih seen

theorem uniqueQuotesGo_sublist (qs : List QuoteItem) :
    ∀ seen, (uniqueQuotesGo seen qs).Sublist qs := by
  induction qs with
  | nil =>
      intro seen
      simp [uniqueQuotesGo]
  | cons a rest ih =>
      intro seen
      by_cases ha : a.itemNo ≠ "" ∧ a.itemNo ∉ seen
      · rw [uniqueQuotesGo, if_pos ha]
        exact List.Sublist.cons₂ a (ih _)
      · rw [uniqueQuotesGo, if_neg ha]
        exact List.Sublist.cons a (ih _)

theorem uniqueEquipGo_spec (es : List DrawingItem) :
    ∀ (seen : List String), ∀ e ∈ uniqueEquipGo seen es,
      e.no ∉ seen ∧ es.find? (fun x => x.no = e.no) = some e := by
  induction es with
  | nil =>
      intro seen e he
      simp [uniqueEquipGo] at he
  | cons a rest ih =>
      intro seen e he
      by_cases ha : a.no ∉ seen
      · rw [uniqueEquipGo, if_pos ha] at he
        rcases List.mem_cons.mp he with rfl | he2
        · exact ⟨ha, List.find?_cons_of_pos _ (by simp)⟩
        · obtain ⟨h2, h3⟩ := ih (a.no :: seen) e he2
          have hne : a.no ≠ e.no := by
            intro hx
            exact h2 (by rw [← hx]; exact List.mem_cons_self _ _)
          refine ⟨fun hs => h2 (List.mem_cons_of_mem _ hs), ?_⟩
          rw [List.find?_cons_of_neg _ (by simp [hne]), h3]
      · rw [uniqueEquipGo, if_neg ha] at he
        obtain ⟨h2, h3⟩ := ih seen e he
        have hne : a.no ≠ e.no := by
          intro hx
          exact h2 (hx ▸ of_not_not ha)
        rw [List.find?_cons_of_neg _ (by simp [hne]), h3]
        exact ⟨h2, rfl⟩

theorem uniqueEquipGo_covers (es : List DrawingItem) :
    ∀ (seen : List String), ∀ e ∈ es, e.no ∉ seen →
      ∃ r ∈ uniqueEquipGo seen es, r.no = e.no := by
  induction es with
  | nil => simp
  | cons a rest ih =>
      intro seen e he hseen
      by_cases ha : a.no ∉ seen
      · rw [uniqueEquipGo, if_pos ha]
        rcases List.mem_cons.mp he with rfl | he2
        · exact ⟨e, List.mem_cons_self _ _, rfl⟩
        · by_cases hkey : e.no = a.no
          · exact ⟨a, List.mem_cons_self _ _, hkey.symm⟩
          · obtain ⟨r, hr, hrk⟩ := ih (a.no :: seen) e he2 (by
              intro hmem
              rcases List.mem_cons.mp hmem with h | h
              · exact hkey h
              · exact hseen h)
            exact ⟨r, List.mem_cons_of_mem _ hr, hrk⟩
      · rw [uniqueEquipGo, if_neg ha]
        rcases List.mem_cons.mp he with rfl | he2
        · exact absurd hseen ha
        · exact ih seen e he2 hseen

theorem uniqueEquipGo_pairwise (es : List DrawingItem) :
    ∀ seen, (uniqueEquipGo seen es).Pairwise (fun a b => a.no ≠ b.no) := by
  induction es with
  | nil =>
      intro seen
      simp [uniqueEquipGo]
  | cons a rest ih =>
      intro seen
      by_cases ha : a.no ∉ seen
      · rw [uniqueEquipGo, if_pos ha]
        refine List.Pairwise.cons ?_ (ih _)
        intro b hb he
        exact (uniqueEquipGo_spec rest (a.no :: seen) b hb).1
          (by rw [← he]; exact List.mem_cons_self _ _)
      · rw [uniqueEquipGo, if_neg ha]
        exact ih seen

theorem uniqueEquipGo_sublist (es : List DrawingItem) :
    ∀ seen, (uniqueEquipGo seen es).Sublist es := by
  induction es with
  | nil =>
      intro seen
      simp [uniqueEquipGo]
  | cons a rest ih =>
      intro seen
      by_cases ha : a.no ∉ seen
      · rw [uniqueEquipGo, if_pos ha]
        exact List.Sublist.cons₂ a (ih _)
      · rw [uniqueEquipGo, if_neg ha]
        exact List.Sublist.cons a (ih _)

/-- C9: the de-duplication passes of `process_quote_file` and
`process_drawing_file` return lists with pairwise-distinct item numbers,
preserve relative order (the output is a sublist of the input), keep exactly
the first occurrence of each item number (`find?` over the input returns the
kept record), drop quote records with empty item numbers, and represent
every nonempty item number of the input. -/
theorem c9_first_occurrence_dedup (qs : List QuoteItem) (es : List DrawingItem) :
    (process_quote_file_dedup qs).Pairwise (fun a b => a.itemNo ≠ b.itemNo) ∧
    (process_quote_file_dedup qs).Sublist qs ∧
    (∀ q ∈ process_quote_file_dedup qs,
      q.itemNo ≠ "" ∧ qs.find? (fun x => x.itemNo = q.itemNo) = some q) ∧
    (∀ q ∈ qs, q.itemNo ≠ "" →
      ∃ r ∈ process_quote_file_dedup qs, r.itemNo = q.itemNo) ∧
    (process_drawing_file_dedup es).Pairwise (fun a b => a.no ≠ b.no) ∧
    (process_drawing_file_dedup es).Sublist es ∧
    (∀ e ∈ process_drawing_file_dedup es,
      es.find? (fun x => x.no = e.no) = some e) ∧
    (∀ e ∈ es, ∃ r ∈ process_drawing_file_dedup es, r.no = e.no) := by
  refine ⟨uniqueQuotesGo_pairwise qs [], uniqueQuotesGo_sublist qs [], ?_, ?_,
    uniqueEquipGo_pairwise es [], uniqueEquipGo_sublist es [], ?_, ?_⟩
  · intro q hq
    obtain ⟨h1, _, h3⟩ := uniqueQuotesGo_spec qs [] q hq
    exact ⟨h1, h3⟩
  · intro q hq hne
    exact uniqueQuotesGo_covers qs [] q hq hne (List.not_mem_nil _)
  · intro e he
    exact (uniqueEquipGo_spec es [] e he).2
  · intro e he
    exact uniqueEquipGo_covers es [] e he (List.not_mem_nil _)

/-- Quote fixtures for the C9 witness: a duplicate item number and an empty
one. -/
def c9q1 : QuoteItem :=
  { itemNo := "1", description := "a", qty := 1, unitPrice := 0, totalPrice := 0,
    sourceFile := "f" }

def c9qEmpty : QuoteItem :=
  { itemNo := "", description := "b", qty := 1, unitPrice := 0, totalPrice := 0,
    sourceFile := "f" }

def c9q1dup : QuoteItem :=
  { itemNo := "1", description := "c", qty := 1, unitPrice := 0, totalPrice := 0,
    sourceFile := "f" }

/-- C9 witness for `c9_first_occurrence_dedup` at a concrete list. -/
theorem c9_first_occurrence_dedup_witness :
    c9q1 ∈ process_quote_file_dedup [c9q1, c9qEmpty, c9q1dup] ∧
    (c9q1.itemNo ≠ "" ∧
      [c9q1, c9qEmpty, c9q1dup].find? (fun x => x.itemNo = c9q1.itemNo) = some c9q1) ∧
    (∃ r ∈ process_quote_file_dedup [c9q1, c9qEmpty, c9q1dup], r.itemNo = c9q1dup.itemNo) :=
  ⟨by decide,
   (c9_first_occurrence_dedup [c9q1, c9qEmpty, c9q1dup] []).2.2.1 c9q1 (by decide),
   (c9_first_occurrence_dedup [c9q1, c9qEmpty, c9q1dup] []).2.2.2.1 c9q1dup
     (by decide) (by decide)⟩
